import Mathlib

/-!
Verification of the dental-ordering decision core.

This file is a shallow embedding, in Lean 4, of the validation / normalization /
slot-management core of the repository:

* `src/tooth_validator.py`     — FDI tooth-position validation,
* `src/rules.py`               — bridge continuity and material compatibility,
* `src/material_normalizer.py` — three-stage material-name normalization,
* `src/main.py`                — order-slot dependency resets and outcome merging,
* `src/tools.py`               — the patient-name storage heuristic.

Python `dict` results are embedded as structures whose optional keys become
`Option` fields (a key that is absent from the dict literal, or present with
value `None`, is `none`).  Python strings are Lean `String`s; Python `int` is
`Int` (Python `//` and `%` on a positive divisor are floor division and
non-negative remainder, which coincide with Lean's `Int` `/` and `%`).
External collaborators (the `difflib.get_close_matches` call and the Azure
OpenAI classification call of the normalizer) are modelled as oracle
parameters; every theorem below either quantifies over them or instantiates
them with an explicit oracle, and the facts proved never depend on their
answers.
-/

namespace Dental

/-- ASCII lowercasing, the behaviour of Python `str.lower()` on the alphabets
that actually occur in this code base (ASCII letters; CJK characters and
full-width punctuation are unaffected by `lower()`). -/
def pyLower (s : String) : String :=
  String.mk (s.data.map Char.toLower)

/-- The whitespace class of Python `str.strip()` / regex `\s` restricted to
the characters occurring in this code base. -/
def pyIsSpace (c : Char) : Bool :=
  c = ' ' || c = '\t' || c = '\n' || c = '\r' || c = '\x0b' || c = '\x0c'

/-- Python `str.strip()`: drop leading and trailing whitespace. -/
def pyStrip (s : String) : String :=
  String.mk ((s.data.dropWhile pyIsSpace).reverse.dropWhile pyIsSpace |>.reverse)

/-- Value of a list of decimal digit characters, `none` if any character is
not a digit or the list is empty. -/
def digitsVal : List Char → Option Nat
  | [] => none
  | [c] => if c.isDigit then some (c.toNat - '0'.toNat) else none
  | c :: rest =>
    if c.isDigit then
      (digitsVal rest).map (fun n => (c.toNat - '0'.toNat) * 10 ^ rest.length + n)
    else none

/-- Python `int(token)` on a whitespace-free token: an optional sign followed
by at least one decimal digit; anything else raises `ValueError` (= `none`). -/
def pyInt (s : String) : Option Int :=
  match s.data with
  | '-' :: rest => (digitsVal rest).map (fun n => -(n : Int))
  | '+' :: rest => (digitsVal rest).map (fun n => (n : Int))
  | l => (digitsVal l).map (fun n => (n : Int))

/-- Split a character list at every character satisfying `p` (adjacent
separators produce empty pieces, exactly like Python `str.split(sep)` with a
one-character separator; the callers below filter the empty pieces away,
which also makes it agree with `re.split(r'[...]+', s)` plus that filter). -/
def splitChars (p : Char → Bool) : List Char → List (List Char)
  | [] => [[]]
  | c :: rest =>
    let r := splitChars p rest
    if p c then [] :: r
    else
      match r with
      | [] => [[c]]
      | h :: t => (c :: h) :: t

/-- String wrapper of `splitChars`. -/
def splitStr (p : Char → Bool) (s : String) : List String :=
  (splitChars p s.data).map String.mk

/-- `re.split(r'[,\s]+', s.strip())` followed by dropping empty tokens, as in
`ToothValidator.validate_multiple_teeth`. -/
def splitToothTokens (s : String) : List String :=
  (splitStr (fun c => c = ',' || pyIsSpace c) (pyStrip s)).filter (· ≠ "")

/-! ## `src/tooth_validator.py` -/

/-- `ToothValidator.VALID_TEETH`:
`set(range(11,19)) | set(range(21,29)) | set(range(31,39)) | set(range(41,49))`. -/
def VALID_TEETH : List Int :=
  [11, 12, 13, 14, 15, 16, 17, 18,
   21, 22, 23, 24, 25, 26, 27, 28,
   31, 32, 33, 34, 35, 36, 37, 38,
   41, 42, 43, 44, 45, 46, 47, 48]

/-- `ToothValidator.QUADRANT_NAMES` (total function; the code only reads keys
1–4, on which the embedding agrees with the Python dict). -/
def QUADRANT_NAMES (q : Int) : String :=
  if q = 1 then "Upper Right (右上)"
  else if q = 2 then "Upper Left (左上)"
  else if q = 3 then "Lower Left (左下)"
  else if q = 4 then "Lower Right (右下)"
  else ""

/-- `ToothValidator.TOOTH_TYPES` (total function; the code only reads keys
1–8, on which the embedding agrees with the Python dict). -/
def TOOTH_TYPES (p : Int) : String :=
  if p = 1 then "Central Incisor (中門牙)"
  else if p = 2 then "Lateral Incisor (側門牙)"
  else if p = 3 then "Canine (犬齒)"
  else if p = 4 then "First Premolar (第一小臼齒)"
  else if p = 5 then "Second Premolar (第二小臼齒)"
  else if p = 6 then "First Molar (第一大臼齒)"
  else if p = 7 then "Second Molar (第二大臼齒)"
  else if p = 8 then "Third Molar/Wisdom (第三大臼齒/智慧齒)"
  else ""

/-- Result dict of `ToothValidator.validate_single_tooth`. -/
structure SingleToothResult where
  valid : Bool
  tooth_number : Int
  quadrant : Option Int
  quadrant_name : Option String
  position : Option Int
  tooth_type : Option String
  error : Option String
  deriving Repr, DecidableEq

/-- The error message chosen by `validate_single_tooth` for an invalid tooth. -/
def singleToothError (n : Int) : String :=
  if n < 11 then
    s!"Invalid tooth number {n}. Tooth numbers must be between 11-18, 21-28, 31-38, or 41-48."
  else if n > 48 then
    s!"Invalid tooth number {n}. Maximum tooth number is 48."
  else
    let quadrant := n / 10
    let position := n % 10
    if quadrant ≠ 1 ∧ quadrant ≠ 2 ∧ quadrant ≠ 3 ∧ quadrant ≠ 4 then
      s!"Invalid quadrant {quadrant}. Valid quadrants are 1 (UR), 2 (UL), 3 (LL), 4 (LR)."
    else if position < 1 ∨ position > 8 then
      s!"Invalid position {position} in quadrant {quadrant}. Valid positions are 1-8."
    else
      s!"Invalid tooth number {n}."

/-- `ToothValidator.validate_single_tooth`. -/
def validate_single_tooth (n : Int) : SingleToothResult :=
  if n ∈ VALID_TEETH then
    { valid := true
      tooth_number := n
      quadrant := some (n / 10)
      quadrant_name := some (QUADRANT_NAMES (n / 10))
      position := some (n % 10)
      tooth_type := some (TOOTH_TYPES (n % 10))
      error := none }
  else
    { valid := false
      tooth_number := n
      quadrant := none
      quadrant_name := none
      position := none
      tooth_type := none
      error := some (singleToothError n) }

/-- Result dict of `ToothValidator.validate_multiple_teeth`; the
`invalid_teeth` entries `{tooth_number, error}` become pairs. -/
structure MultiToothResult where
  valid : Bool
  teeth : List Int
  valid_teeth : List Int
  invalid_teeth : List (Int × String)
  count : Nat
  error : Option String
  quadrants_involved : List Int
  is_continuous : Bool
  deriving Repr, DecidableEq

/-- The consecutive-difference loop of `ToothValidator._check_continuity`:
`sorted_teeth[i+1] - sorted_teeth[i] == 1` for every adjacent pair. -/
def diffsOne : List Int → Bool
  | [] => true
  | [_] => true
  | a :: b :: rest => (b - a == 1) && diffsOne (b :: rest)

/-- `ToothValidator._check_continuity`. -/
def check_continuity (teeth : List Int) : Bool :=
  if teeth.length ≤ 1 then true
  else
    let sorted_teeth := teeth.insertionSort (· ≤ ·)
    let quadrants := sorted_teeth.map (· / 10)
    if 1 < quadrants.toFinset.card then
      -- Valid cross-quadrant bridges: 11-21 (upper midline); otherwise not continuous
      decide (sorted_teeth.toFinset = ({11, 21} : Finset Int))
    else
      diffsOne sorted_teeth

/-- `sorted(list(set(xs)))` on quadrant numbers: the distinct values in
ascending order (`List.mergeSort`/`insertionSort` of `eraseDups`). -/
def sortedDistinct (xs : List Int) : List Int :=
  (xs.eraseDups).insertionSort (· ≤ ·)

/-- The CPython message of the `ValueError` raised by `int(tok)` on a
malformed token, interpolated into the format-error message below. -/
def intValueError (tok : String) : String :=
  s!"invalid literal for int() with base 10: '{tok}'"

/-- `ToothValidator.validate_multiple_teeth`. -/
def validate_multiple_teeth (tooth_positions : String) : MultiToothResult :=
  match (splitToothTokens tooth_positions).mapM pyInt with
  | none =>
    -- the ValueError carries the first token int() chokes on
    let badTok := ((splitToothTokens tooth_positions).find? (fun t => (pyInt t).isNone)).getD ""
    { valid := false, teeth := [], valid_teeth := [], invalid_teeth := []
      count := 0
      error := some s!"Invalid input format. Please use numbers separated by commas or spaces. Error: {intValueError badTok}"
      quadrants_involved := [], is_continuous := false }
  | some tooth_numbers =>
    if tooth_numbers = [] then
      { valid := false, teeth := [], valid_teeth := [], invalid_teeth := []
        count := 0
        error := some "No tooth positions provided."
        quadrants_involved := [], is_continuous := false }
    else
      let valid_teeth := tooth_numbers.filter (fun t => (validate_single_tooth t).valid)
      let invalid_teeth := (tooth_numbers.filter (fun t => !(validate_single_tooth t).valid)).map
        (fun t => (t, singleToothError t))
      let all_valid := invalid_teeth.length = 0
      { valid := all_valid
        teeth := tooth_numbers
        valid_teeth := valid_teeth
        invalid_teeth := invalid_teeth
        count := tooth_numbers.length
        error := if all_valid then none else
          some (s!"Found {invalid_teeth.length} invalid tooth position(s). " ++
            String.intercalate "; "
              (invalid_teeth.map (fun it => s!"Tooth {it.1}: {it.2}")))
        quadrants_involved := sortedDistinct (valid_teeth.map (· / 10))
        is_continuous := check_continuity valid_teeth }

/-- Tool entry point `validate_tooth_position` (delegates to
`validate_multiple_teeth`). -/
def validate_tooth_position (tooth_positions : String) : MultiToothResult :=
  validate_multiple_teeth tooth_positions

/-! ## `src/rules.py` — `validate_bridge_positions` -/

/-- Result dict of `validate_bridge_positions`. -/
structure BridgeResult where
  valid : Bool
  message : String
  error_type : Option String := none
  bridge_span : Option Nat := none
  position_type : Option String := none
  positions : Option (List Int) := none
  deriving Repr, DecidableEq

/-- The continuity loop of `validate_bridge_positions`: the first adjacent
pair of the (sorted) list whose difference is not exactly 1. -/
def firstGap : List Int → Option (Int × Int)
  | [] => none
  | [_] => none
  | a :: b :: rest => if b - a ≠ 1 then some (a, b) else firstGap (b :: rest)

/-- The discontinuity message
`f'牙位不連續：{positions[i]} 和 {positions[i+1]} 之間缺少 {positions[i]+1} 號牙'`;
it names the missing tooth `a + 1`. -/
def discontinuousMsg (a b : Int) : String :=
  s!"牙位不連續：{a} 和 {b} 之間缺少 {a + 1} 號牙"

/-- `[int(p.strip()) for p in tooth_positions_str.split(',') if p.strip()]`
(`none` when `int()` raises `ValueError`). -/
def parseBridgePositions (s : String) : Option (List Int) :=
  (((splitStr (· = ',') s).map pyStrip).filter (· ≠ "")).mapM pyInt

/-- `validate_bridge_positions` (`src/rules.py`).  The Python function takes a
params dict and reads `params.get('tooth_positions', '')`; that string is the
argument here.  `f'牙位 {positions} 驗證通過'` interpolates the Python list
repr, which prints exactly like Lean's `List Int` (`[14, 15, 16]`). -/
def validate_bridge_positions (tooth_positions_str : String) : BridgeResult :=
  -- `if not tooth_positions_str or tooth_positions_str.strip() == ''`
  if pyStrip tooth_positions_str = "" then
    { valid := false, message := "請提供牙位編號", error_type := some "missing_positions" }
  else
    match parseBridgePositions tooth_positions_str with
    | none =>
      { valid := false, message := "牙位格式錯誤，請使用數字", error_type := some "invalid_format" }
    | some positions =>
      if positions = [] then
        { valid := false, message := "請提供有效的牙位", error_type := some "missing_positions" }
      else
        let positions := positions.insertionSort (· ≤ ·)
        match firstGap positions with
        | some (a, b) =>
          { valid := false, message := discontinuousMsg a b
            error_type := some "discontinuous", positions := some positions }
        | none =>
          if 4 < positions.length then
            { valid := false
              message := s!"牙橋最多支援 4 顆牙（您選擇了 {positions.length} 顆）"
              error_type := some "too_long", positions := some positions }
          else
            let is_anterior := positions.any (fun p => 11 ≤ p && p ≤ 23)
            let position_type := if is_anterior then "anterior" else "posterior"
            { valid := true
              message := s!"牙位 {positions} 驗證通過"
              bridge_span := some positions.length
              position_type := some position_type
              positions := some positions }

/-! ## `src/rules.py` — `validate_material_compatibility` -/

/-- First-match lookup in an association list, the embedding of a Python dict
read `d.get(k)` (all the dicts embedded this way have pairwise-distinct keys,
so first-match agrees with dict lookup). -/
def lookupAssoc (l : List (String × α)) (k : String) : Option α :=
  (l.find? (fun p => p.1 = k)).map (·.2)

/-- `category_map` of `validate_material_compatibility`. -/
def category_map : List (String × String) :=
  [("pfm", "pfm"), ("porcelain-fused-to-metal", "pfm"), ("porcelain", "pfm"),
   ("烤瓷", "pfm"),
   ("metal-free", "metal-free"), ("all-ceramic", "metal-free"),
   ("ceramic", "metal-free"), ("全瓷", "metal-free"),
   ("full-cast", "full-cast"), ("full-metal", "full-cast"),
   ("full cast", "full-cast"), ("全金屬", "full-cast"), ("全金", "full-cast")]

/-- `subtype_map` of `validate_material_compatibility` (the rule engine's own
subtype-synonym table, distinct from the §4.3 normalizer). -/
def subtype_map : List (String × String) :=
  [("high-noble", "high-noble"), ("high noble", "high-noble"), ("高貴金屬", "high-noble"),
   ("semi-precious", "semi-precious"), ("semi precious", "semi-precious"),
   ("半貴金屬", "semi-precious"),
   ("non-precious", "non-precious"), ("non precious", "non-precious"),
   ("非貴金屬", "non-precious"),
   ("palladium", "palladium"), ("鈀基", "palladium"),
   ("titanium", "titanium"), ("鈦合金", "titanium"), ("鈦", "titanium"),
   ("ips-emax", "ips-emax"), ("ips e.max", "ips-emax"), ("emax", "ips-emax"),
   ("e.max", "ips-emax"),
   ("fmz", "fmz"), ("全鋯", "fmz"),
   ("fmz-ultra", "fmz-ultra"), ("fmz ultra", "fmz-ultra"), ("高透多層鋯", "fmz-ultra"),
   ("lava", "lava"), ("3m lava", "lava"),
   ("lava-plus", "lava-plus"), ("lava plus", "lava-plus"),
   ("lava-esthetic", "lava-esthetic"), ("lava esthetic", "lava-esthetic"),
   ("calypso", "calypso"),
   ("composite", "composite"), ("複合樹脂", "composite"),
   ("zineer", "zineer"),
   ("high-precious-gold", "high-precious-gold"),
   ("high precious gold", "high-precious-gold"), ("高貴黃金", "high-precious-gold"),
   ("semi-precious-gold", "semi-precious-gold"),
   ("semi precious gold", "semi-precious-gold"), ("半貴黃金", "semi-precious-gold"),
   ("low-precious-gold", "low-precious-gold"),
   ("low precious gold", "low-precious-gold"), ("低貴黃金", "low-precious-gold"),
   ("white-gold", "white-gold"), ("white gold", "white-gold"), ("白金", "white-gold"),
   ("pure-titanium", "pure-titanium"), ("pure titanium", "pure-titanium"),
   ("純鈦", "pure-titanium")]

/-- One value of the `compatibility_rules` table: `allowed_subtypes`,
optional `forbidden_subtypes` (absent key = `[]`, read with
`.get('forbidden_subtypes', [])`), and `reason`. -/
structure CategoryRule where
  allowed_subtypes : List String
  forbidden_subtypes : List String := []
  reason : String
  deriving Repr, DecidableEq

/-- `compatibility_rules` of `validate_material_compatibility`: per
restoration type, the category rules in dict order. -/
def compatibility_rules (restoration_type : String) :
    Option (List (String × CategoryRule)) :=
  if restoration_type = "crown" then some
    [("pfm",
      { allowed_subtypes := ["high-noble", "semi-precious", "non-precious", "palladium", "titanium"]
        reason := "PFM Crown 可以使用各種金屬基底" }),
     ("metal-free",
      { allowed_subtypes := ["ips-emax", "fmz", "fmz-ultra", "lava", "lava-plus", "lava-esthetic", "calypso", "composite"]
        forbidden_subtypes := ["zineer"]
        reason := "Metal-Free Crown 可以使用多種全瓷材料" }),
     ("full-cast",
      { allowed_subtypes := ["high-precious-gold", "semi-precious-gold", "low-precious-gold", "white-gold", "pure-titanium", "non-precious"]
        reason := "Full Cast Crown 可以使用各種金屬" })]
  else if restoration_type = "bridge" then some
    [("pfm",
      { allowed_subtypes := ["titanium", "non-precious", "high-noble", "semi-precious"]
        reason := "PFM Bridge 需要較強的金屬基底" }),
     ("metal-free",
      { allowed_subtypes := ["ips-emax", "fmz", "lava"]
        forbidden_subtypes := ["composite", "zineer"]
        reason := "Metal-Free Bridge 只能使用高強度全瓷材料" }),
     ("full-cast",
      { allowed_subtypes := ["high-precious-gold", "titanium"]
        reason := "Full Cast Bridge 較少使用，需要極高強度" })]
  else if restoration_type = "veneer" then some
    [("pfm",
      { allowed_subtypes := []
        reason := "Veneer 必須使用全瓷材料以確保透光性" }),
     ("metal-free",
      { allowed_subtypes := ["ips-emax"]
        forbidden_subtypes := ["composite", "zineer", "fmz"]
        reason := "Veneer 需要極佳透光性的全瓷材料" }),
     ("full-cast",
      { allowed_subtypes := []
        reason := "Veneer 必須使用全瓷材料" })]
  else if restoration_type = "inlay" then some
    [("pfm",
      { allowed_subtypes := []
        reason := "Inlay 不適用 PFM" }),
     ("metal-free",
      { allowed_subtypes := ["ips-emax", "composite"]
        reason := "Inlay 建議使用全瓷或複合樹脂" }),
     ("full-cast",
      { allowed_subtypes := ["high-precious-gold", "pure-titanium"]
        reason := "Inlay 可使用全金屬" })]
  else if restoration_type = "onlay" then some
    [("pfm",
      { allowed_subtypes := []
        reason := "Onlay 不適用 PFM" }),
     ("metal-free",
      { allowed_subtypes := ["ips-emax", "fmz"]
        reason := "Onlay 建議使用全瓷" }),
     ("full-cast",
      { allowed_subtypes := ["high-precious-gold", "pure-titanium"]
        reason := "Onlay 可使用全金屬" })]
  else none

/-- Result dict of `validate_material_compatibility`.  No branch of the
Python function ever writes a `query_mode` key (the tool description in
`src/tools.py` nevertheless documents `query_mode: true` for subtype-less
calls), so the field stays at its `none` default in every outcome of the
embedding. -/
structure CompatResult where
  valid : Bool
  message : String
  error_type : Option String := none
  allowed_categories : Option (List String) := none
  allowed_subtypes : Option (List String) := none
  material_category : Option String := none
  material_subtype : Option String := none
  warnings : Option (List String) := none
  query_mode : Option Bool := none
  deriving Repr, DecidableEq

/-- Python `str(x)` of a maybe-`None` string variable (`f'...{x}...'`). -/
def pyOptStr : Option String → String
  | some s => s
  | none => "None"

/-- `validate_material_compatibility` (`src/rules.py`).  The params dict is
split into its four read keys: `restoration_type`, `material_category` and
`material_subtype` are read with default `''` and lowercased; `bridge_span`
is read with default `1`. -/
def validate_material_compatibility (restoration_type₀ material_category₀ material_subtype₀ : String)
    (bridge_span : Int := 1) : CompatResult :=
  let restoration_type := pyLower restoration_type₀
  let material_category := pyLower material_category₀
  let material_subtype := pyLower material_subtype₀
  if restoration_type = "" then
    { valid := false, message := "Missing restoration type parameter"
      error_type := some "missing_parameter" }
  else if material_category = "" then
    { valid := false, message := "Missing material category parameter"
      error_type := some "missing_parameter" }
  else
    let normalized_category := (lookupAssoc category_map material_category).getD material_category
    let normalized_subtype : Option String :=
      if material_subtype ≠ "" then
        some ((lookupAssoc subtype_map material_subtype).getD material_subtype)
      else none
    match compatibility_rules restoration_type with
    | none =>
      { valid := false, message := s!"不支援的修復類型：{restoration_type}"
        error_type := some "unsupported_restoration_type" }
    | some restoration_rules =>
      match lookupAssoc restoration_rules normalized_category with
      | none =>
        { valid := false, message := s!"{restoration_type} 不支援 {normalized_category} 類別"
          error_type := some "unsupported_category" }
      | some category_rules =>
        if category_rules.allowed_subtypes = [] then
          { valid := false
            message := s!"{restoration_type} 不能使用 {normalized_category}。{category_rules.reason}"
            error_type := some "forbidden_category"
            allowed_categories :=
              some ((restoration_rules.filter (fun p => p.2.allowed_subtypes ≠ [])).map (·.1)) }
        else
          -- the final (warnings + success) block, shared by the
          -- subtype-present and subtype-absent paths of the Python code
          let success : CompatResult :=
            let warnings :=
              if restoration_type = "bridge" ∧ bridge_span > 3 ∧
                 normalized_category = "metal-free" ∧
                 normalized_subtype ∉ [some "fmz", some "lava"] then
                [s!"跨度超過 3 單位的牙橋使用 {pyOptStr normalized_subtype}，建議改用 FMZ 或 Lava 以獲得更好的強度"]
              else []
            { valid := true
              message := s!"{restoration_type} 使用 {normalized_category}" ++
                (match normalized_subtype with
                 | some s => s!" ({s})"
                 | none => "") ++ " 驗證通過"
              material_category := some normalized_category
              material_subtype := normalized_subtype
              allowed_subtypes := some category_rules.allowed_subtypes
              warnings := some warnings }
          match normalized_subtype with
          | none => success
          | some s =>
            if s ∈ category_rules.forbidden_subtypes then
              { valid := false
                message := s!"{restoration_type} 不能使用 {s}。請選擇其他材料。"
                error_type := some "forbidden_subtype"
                allowed_subtypes := some category_rules.allowed_subtypes }
            else if s ∉ category_rules.allowed_subtypes then
              { valid := false
                message := s!"{restoration_type} + {normalized_category} 不支援 {s}"
                error_type := some "incompatible_subtype"
                allowed_subtypes := some category_rules.allowed_subtypes }
            else success

/-! ## `src/material_normalizer.py`

The three-stage cascade.  Stage 2c (`difflib.get_close_matches`, an
approximate-similarity lookup with cutoff `0.6`) and stage 3 (the Azure
OpenAI classification call) are external/library collaborators and are
modelled as oracle parameters `getClose` and `llm`; stage 2c's oracle
receives the cleaned input and the cleaned candidate keys and returns the
best key (if any), stage 3's oracle returns the parsed `matched` value.
The process-wide memoization cache `_normalization_cache` only replays the
value computed on the first call, so it is semantically transparent for
deterministic oracles and is not modelled. -/

/-- `s.lower().replace(' ', '').replace('-', '').replace('.', '')` (in either
replacement order), the cleaning used by all normalizer stages. -/
def cleanMaterial (s : String) : String :=
  String.mk ((pyLower s).data.filter (fun c => c ≠ ' ' && c ≠ '-' && c ≠ '.'))

/-- `STANDARD_MATERIALS` (`src/material_normalizer.py`). -/
def STANDARD_MATERIALS : List (String × List String) :=
  [("pfm", ["high-noble", "semi-precious", "non-precious", "palladium", "titanium"]),
   ("metal-free", ["emax", "fmz", "fmz-ultra", "lava", "lava-plus",
                   "lava-esthetic", "calypso", "composite", "zineer"]),
   ("full-cast", ["high-precious-gold", "semi-precious-gold", "low-precious-gold",
                  "white-gold", "pure-titanium", "non-precious"])]

/-- `simple_rules` of `_normalize_simple` (the dict literal repeats the key
`'ipsemax'` with the same value; the dict keeps one entry). -/
def simple_rules : List (String × String) :=
  [("emax", "emax"), ("e.max", "emax"), ("emx", "emax"), ("ips", "emax"),
   ("ipsemax", "emax"),
   ("np", "non-precious"), ("pd", "palladium"), ("ti", "titanium"),
   ("cpst", "composite"), ("comp", "composite")]

/-- `_normalize_simple`: exact lookup of the cleaned input in `simple_rules`.
It ignores the requested category entirely. -/
def normalize_simple (material_input : String) : Option String :=
  lookupAssoc simple_rules (cleanMaterial material_input)

/-- `_normalize_fuzzy` stages 2a (exact cleaned match) and 2b (substring
containment either way), with stage 2c behind the `getClose` oracle. -/
def normalize_fuzzy (getClose : String → List String → Option String)
    (material_input material_category : String) : Option String :=
  let materials_list := (lookupAssoc STANDARD_MATERIALS material_category).getD []
  if materials_list = [] then none
  else
    let cleaned_input := cleanMaterial material_input
    let cleaned_standards := materials_list.map (fun m => (cleanMaterial m, m))
    match lookupAssoc cleaned_standards cleaned_input with
    | some original => some original
    | none =>
      match cleaned_standards.find?
          (fun p => decide (cleaned_input.data <:+: p.1.data) ||
                    decide (p.1.data <:+: cleaned_input.data)) with
      | some p => some p.2
      | none =>
        (getClose cleaned_input (cleaned_standards.map (·.1))).bind
          (fun best => lookupAssoc cleaned_standards best)

/-- `normalize_material` (`src/material_normalizer.py`): stage 1, then
stage 2, then the optional LLM stage (used only when its `matched` answer is
truthy), then the lowercased raw input as fallback.  Empty input returns
`None`. -/
def normalize_material (getClose : String → List String → Option String)
    (llm : String → String → Option String)
    (material_input material_category : String) (use_llm : Bool := true) :
    Option String :=
  if material_input = "" then none
  else
    match normalize_simple material_input with
    | some result => some result
    | none =>
      match normalize_fuzzy getClose material_input material_category with
      | some result => some result
      | none =>
        match (if use_llm then llm material_input material_category else none).filter (· ≠ "") with
        | some result => some result
        | none => some (pyLower material_input)

/-- An oracle that never matches (stage 2c finding nothing above the cutoff /
stage 3 degrading to "no match"). -/
def noClose : String → List String → Option String := fun _ _ => none

/-- An LLM oracle that never matches. -/
def noLLM : String → String → Option String := fun _ _ => none

/-! ## `src/tools.py` — `store_patient_name` -/

/-- Result dict of `store_patient_name`. -/
structure StoreNameResult where
  success : Bool
  message : String
  patient_name : Option String
  error_type : Option String := none
  cleaned_name : Option String := none
  deriving Repr, DecidableEq

/-- The `prefixes` list stripped from the head of the input. -/
def namePrefixes : List String :=
  ["病人:", "病人：", "病患:", "病患：", "患者:", "患者：",
   "patient:", "patient：", "Patient:", "Patient：",
   "姓名:", "姓名：", "name:", "Name:", "姓名 ", "name "]

/-- The prefix-stripping loop: each prefix in turn is removed (case
insensitively) from the current head, followed by `strip()`. -/
def stripNamePrefixes (cleaned : String) : String :=
  namePrefixes.foldl
    (fun acc p =>
      if (pyLower p).data.isPrefixOf (pyLower acc).data then
        pyStrip (String.mk (acc.data.drop p.length))
      else acc)
    cleaned

/-- The character class of `re.sub(r'[，。！？\s,.;:!?]+$', '', cleaned)`. -/
def isTrailPunct (c : Char) : Bool :=
  c = '，' || c = '。' || c = '！' || c = '？' || pyIsSpace c ||
  c = ',' || c = '.' || c = ';' || c = ':' || c = '!' || c = '?'

/-- Drop the trailing run of punctuation/whitespace (the `re.sub` above). -/
def stripTrailPunct (s : String) : String :=
  String.mk ((s.data.reverse.dropWhile isTrailPunct).reverse)

/-- `material_abbrs` of `store_patient_name`. -/
def material_abbrs : List String :=
  ["np", "n-p", "nonprecious", "non-precious", "nonpreciousmetal",
   "hp", "h-p", "highprecious", "high-precious", "highnoble",
   "sp", "s-p", "semiprecious", "semi-precious",
   "ti", "titanium", "zr", "zirconia", "fmz", "fullzirconia",
   "emax", "e.max", "ips", "au", "gold", "pd", "palladium",
   "cocr", "co-cr", "cobaltchrome", "cobalt-chrome"]

/-- `lo ≤ c ≤ hi` on characters. -/
def chBetween (c lo hi : Char) : Bool := lo ≤ c && c ≤ hi

/-- The six anchored `shade_patterns` regexes of `store_patient_name`,
decided on the cleaned lowercase string (they all share the error type, so
the order in which Python tries them is immaterial):
`^[a-d][1-4]$`, `^[a-d][1-4]\.5$`, `^bl[1-4]$`, `^0m[1-3]$`,
`^[a-d][1-4]o$`, `^[1-5]m[1-3]$`. -/
def isShadeFormat (s : String) : Bool :=
  match s.data with
  | [x, y] => chBetween x 'a' 'd' && chBetween y '1' '4'
  | [x, y, z] =>
    (x = 'b' && y = 'l' && chBetween z '1' '4') ||
    (x = '0' && y = 'm' && chBetween z '1' '3') ||
    (chBetween x 'a' 'd' && chBetween y '1' '4' && z = 'o') ||
    (chBetween x '1' '5' && y = 'm' && chBetween z '1' '3')
  | [x, y, z, w] => chBetween x 'a' 'd' && chBetween y '1' '4' && z = '.' && w = '5'
  | _ => false

/-- `re.match(r'^\d{4}$', cleaned)`: exactly four decimal digits. -/
def isFourDigitCode (s : String) : Bool :=
  s.data.length = 4 && s.data.all Char.isDigit

/-- `cleaned.isascii()`: every character below U+0080. -/
def pyIsAscii (s : String) : Bool :=
  s.data.all (fun c => c.toNat < 128)

/-- `cleaned.replace(' ', '').isdigit()`: non-empty and all digits after
removing spaces. -/
def allDigitsNoSpace (s : String) : Bool :=
  let t := s.data.filter (fun c => c ≠ ' ')
  t ≠ [] && t.all Char.isDigit

/-- The full cleaning pipeline of `store_patient_name`: `strip()`, prefix
removal, trailing-punctuation removal, `strip()`. -/
def cleanPatientName (patient_name : String) : String :=
  pyStrip (stripTrailPunct (stripNamePrefixes (pyStrip patient_name)))

/-- `cleaned.lower().replace(' ', '').replace('-', '')`. -/
def cleanedLowerName (cleaned : String) : String :=
  String.mk ((pyLower cleaned).data.filter (fun c => c ≠ ' ' && c ≠ '-'))

/-- `store_patient_name` (`src/tools.py`): the layered heuristic rejection of
material abbreviations, shade codes, 4-digit product codes, too-short and
all-digit inputs. -/
def store_patient_name (patient_name : String) : StoreNameResult :=
  let cleaned := cleanPatientName patient_name
  if cleaned = "" then
    { success := false, message := "姓名不能為空", patient_name := none
      error_type := some "empty_after_clean" }
  else
    let cleaned_lower := cleanedLowerName cleaned
    if cleaned_lower ∈ material_abbrs then
      { success := false
        message := s!"「{cleaned}」是常見牙科材料縮寫，不是病人姓名"
        patient_name := none, error_type := some "material_abbreviation" }
    else if isShadeFormat cleaned_lower then
      { success := false
        message := s!"「{cleaned}」符合色階（shade）格式，不是病人姓名"
        patient_name := none, error_type := some "shade_format" }
    else if isFourDigitCode cleaned then
      { success := false
        message := s!"「{cleaned}」看起來像是產品代碼，不是病人姓名"
        patient_name := none, error_type := some "product_code_like" }
    else if cleaned.length ≤ 1 || (cleaned.length ≤ 3 && pyIsAscii cleaned) then
      { success := false
        message := s!"姓名「{cleaned}」過短，不像是真實姓名"
        patient_name := none, error_type := some "too_short" }
    else if allDigitsNoSpace cleaned then
      { success := false, message := "姓名不能全部是數字"
        patient_name := none, error_type := some "all_digits" }
    else
      { success := true
        message := s!"病人姓名已記錄：{cleaned}"
        patient_name := some cleaned
        cleaned_name := some cleaned }

/-! ## `src/main.py` — order slots, dependency resets, outcome merging -/

/-- The per-session `order_data` dict.  A key that is absent, or present with
value `None`, is `none` (every read in the code goes through `.get` or a
truthiness test, which cannot distinguish the two; `_reset_dependent_fields`
pops present keys, which also lands on `none`). -/
structure OrderData where
  restoration_type : Option String := none
  tooth_positions : Option String := none
  bridge_span : Option Nat := none
  position_type : Option String := none
  material_category : Option String := none
  material_subtype : Option String := none
  product_code : Option String := none
  product_name : Option String := none
  shade : Option String := none
  patient_name : Option String := none
  deriving Repr, DecidableEq

/-- Python truthiness of an optional string slot (`None` and `''` are
falsy). -/
def truthy : Option String → Bool
  | none => false
  | some s => s ≠ ""

/-- `if old and old != new` for an old slot against a new plain string. -/
def changedTo (old : Option String) (new : String) : Bool :=
  match old with
  | none => false
  | some s => s ≠ "" && s ≠ new

/-- `if old and old != new` where the new value itself came from `.get` and
may be `None` (a truthy old value always differs from `None`). -/
def changedToOpt (old new : Option String) : Bool :=
  match old with
  | none => false
  | some s => s ≠ "" && some s ≠ new

/-- `_reset_dependent_fields` (`src/main.py`): clears the dependents of the
changed field and nothing else. -/
def reset_dependent_fields (od : OrderData) (changed_field : String) : OrderData :=
  if changed_field = "restoration_type" then
    { od with material_category := none, material_subtype := none
              product_code := none, product_name := none
              bridge_span := none, position_type := none }
  else if changed_field = "material_category" then
    { od with material_subtype := none, product_code := none, product_name := none }
  else if changed_field = "material_subtype" then
    { od with product_code := none, product_name := none }
  else od

/-- The tool-call argument dict (`tool_args`), keys read with `.get`. -/
structure ToolArgs where
  tooth_positions : Option String := none
  restoration_type : Option String := none
  material_category : Option String := none
  material_subtype : Option String := none
  deriving Repr, DecidableEq

/-- One product record of the `search_products` result (keys read with
`.get('product_code')` and `.get('material_name', 'N/A')`). -/
structure Product where
  product_code : Option String := none
  material_name : Option String := none
  deriving Repr, DecidableEq

/-- The `search_products` tool result as read by `_extract_order_data`:
`tool_result.get('found')` and `tool_result.get('products')` (an absent key
and an empty list are both falsy). -/
structure SearchResult where
  found : Bool := false
  products : List Product := []
  deriving Repr, DecidableEq

/-- One dispatched `(tool_name, tool_args, tool_result)` triple.  Tool names
without an `elif` branch in `_extract_order_data` (e.g.
`validate_tooth_positions`) leave the order data untouched and are modelled
by `otherTool`. -/
inductive ToolCall where
  | validateBridge (args : ToolArgs) (result : BridgeResult)
  | validateMaterial (args : ToolArgs) (result : CompatResult)
  | searchProducts (args : ToolArgs) (result : SearchResult)
  | storePatientName (result : StoreNameResult)
  | otherTool
  deriving Repr

/-- `_extract_order_data` (`src/main.py`): merge one tool outcome into the
order data, cascading dependency resets on upstream change. -/
def extract_order_data (od : OrderData) : ToolCall → OrderData
  | .validateBridge args result =>
    if result.valid then
      let od :=
        if changedTo od.restoration_type "bridge" then
          reset_dependent_fields od "restoration_type"
        else od
      { od with restoration_type := some "bridge"
                tooth_positions := args.tooth_positions
                bridge_span := result.bridge_span
                position_type := result.position_type }
    else od
  | .validateMaterial args result =>
    if result.valid then
      let new_restoration_type := args.restoration_type
      let new_material_category := result.material_category
      let new_material_subtype := result.material_subtype
      let od :=
        if changedToOpt od.restoration_type new_restoration_type then
          reset_dependent_fields od "restoration_type"
        else od
      let od :=
        if changedToOpt od.material_category new_material_category then
          reset_dependent_fields od "material_category"
        else od
      { od with restoration_type := new_restoration_type
                material_category := new_material_category
                material_subtype := new_material_subtype }
    else od
  | .searchProducts args result =>
    let od :=
      if !truthy od.restoration_type then { od with restoration_type := args.restoration_type }
      else od
    let od :=
      if !truthy od.material_category then { od with material_category := args.material_category }
      else od
    let od :=
      if !truthy od.material_subtype then { od with material_subtype := args.material_subtype }
      else od
    if result.found && !result.products.isEmpty then
      match result.products with
      | [first_product] =>
        let od :=
          if !truthy od.product_code then { od with product_code := first_product.product_code }
          else od
        if !truthy od.product_name then
          { od with product_name := some (first_product.material_name.getD "N/A") }
        else od
      | _ => od
    else od
  | .storePatientName result =>
    if result.success then
      match result.patient_name with
      | some pn => if pn ≠ "" then { od with patient_name := some pn } else od
      | none => od
    else od
  | .otherTool => od

/-! ## Helper lemmas -/

/-- Membership in `VALID_TEETH` is exactly the quadrant/position arithmetic
characterisation (Python `//` and `%` on the positive divisor 10 coincide
with `Int` `/` and `%`). -/
theorem mem_VALID_TEETH_iff (n : Int) :
    n ∈ VALID_TEETH ↔
      ((n / 10 = 1 ∨ n / 10 = 2 ∨ n / 10 = 3 ∨ n / 10 = 4) ∧
       1 ≤ n % 10 ∧ n % 10 ≤ 8) := by
  simp only [VALID_TEETH, List.mem_cons, List.not_mem_nil, or_false]
  omega

/-- The `valid` flag of `validate_single_tooth` is membership in
`VALID_TEETH`. -/
theorem valid_single_iff (n : Int) :
    (validate_single_tooth n).valid = true ↔ n ∈ VALID_TEETH := by
  unfold validate_single_tooth
  split <;> simp_all

/-- `diffsOne` is the `Chain'` of successive differences being exactly 1. -/
theorem diffsOne_iff : ∀ l : List Int,
    diffsOne l = true ↔ l.Chain' (fun a b => b - a = 1)
  | [] => by simp [diffsOne]
  | [a] => by simp [diffsOne]
  | a :: b :: t => by
    rw [diffsOne]
    simp [List.chain'_cons, diffsOne_iff (b :: t)]

/-- `firstGap` finds nothing exactly when all successive differences are 1. -/
theorem firstGap_eq_none_iff : ∀ l : List Int,
    firstGap l = none ↔ l.Chain' (fun a b => b - a = 1)
  | [] => by simp [firstGap]
  | [a] => by simp [firstGap]
  | a :: b :: t => by
    rw [firstGap]
    split
    · simp_all [List.chain'_cons]
    · simp_all [List.chain'_cons, firstGap_eq_none_iff (b :: t)]

/-- `any` is invariant under the sorting performed by the validators. -/
theorem any_insertionSort (l : List Int) (p : Int → Bool) :
    (l.insertionSort (· ≤ ·)).any p = l.any p := by
  have h := List.perm_insertionSort (· ≤ ·) l
  rw [Bool.eq_iff_iff]
  simp only [List.any_eq_true]
  constructor
  · rintro ⟨x, hx, hp⟩; exact ⟨x, h.mem_iff.mp hx, hp⟩
  · rintro ⟨x, hx, hp⟩; exact ⟨x, h.mem_iff.mpr hx, hp⟩

/-- If `validate_multiple_teeth` reports `valid`, every parsed tooth passes
`validate_single_tooth` individually. -/
theorem multi_valid_sound (s : String) :
    (validate_multiple_teeth s).valid = true →
    ∀ t ∈ (validate_multiple_teeth s).teeth, (validate_single_tooth t).valid = true := by
  unfold validate_multiple_teeth
  split
  · intro hv
    simp at hv
  · split
    · intro hv
      simp at hv
    · intro hv t ht
      simp only at hv ht
      rw [decide_eq_true_iff, List.length_eq_zero, List.map_eq_nil_iff,
        List.filter_eq_nil_iff] at hv
      have := hv t ht
      simp only [Bool.not_eq_true'] at this
      simpa using this

/-! ## Claim theorems -/

/-- C1: the tooth validator accepts an integer `n` iff `n ÷ 10 ∈ {1,2,3,4}`
and `n mod 10 ∈ {1..8}`; `validate("11")` is valid while `validate("19")` and
`validate("50")` are invalid; and the overall `valid` flag of a multi-tooth
call is true only if every supplied tooth is individually valid. -/
theorem C1_tooth_validation :
    (∀ n : Int, (validate_single_tooth n).valid = true ↔
        ((n / 10 = 1 ∨ n / 10 = 2 ∨ n / 10 = 3 ∨ n / 10 = 4) ∧
         1 ≤ n % 10 ∧ n % 10 ≤ 8)) ∧
    (validate_tooth_position "11").valid = true ∧
    (validate_tooth_position "19").valid = false ∧
    (validate_tooth_position "50").valid = false ∧
    (∀ s : String, (validate_tooth_position s).valid = true →
        ∀ t ∈ (validate_tooth_position s).teeth, (validate_single_tooth t).valid = true) := by
  refine ⟨fun n => (valid_single_iff n).trans (mem_VALID_TEETH_iff n), ?_, ?_, ?_, ?_⟩
  · rfl
  · rfl
  · rfl
  · exact fun s => multi_valid_sound s

/-- C1 witness: a concrete multi-tooth call on which the final conjunct of
`C1_tooth_validation` is instantiated. -/
theorem C1_witness :
    (validate_tooth_position "14 15 16").valid = true ∧
    ∀ t ∈ (validate_tooth_position "14 15 16").teeth,
      (validate_single_tooth t).valid = true :=
  ⟨by rfl, C1_tooth_validation.2.2.2.2 "14 15 16" (by rfl)⟩

/-- C2 counterexample: the claim predicts that the midline pair {31,41} is
continuous, but `_check_continuity` special-cases only {11,21} and returns
`False` on the (individually valid) teeth 31 and 41. -/
theorem C2_counterexample :
    check_continuity [31, 41] = false ∧
    (31 : Int) ∈ VALID_TEETH ∧ (41 : Int) ∈ VALID_TEETH ∧
    ([31, 41] : List Int).toFinset = ({31, 41} : Finset Int) := by
  refine ⟨by decide, by decide, by decide, by decide⟩

/-- C2 (amended): for every list of teeth, `is_continuous` is true iff the
sorted list has consecutive gaps of exactly 1 within at most one quadrant,
OR the teeth are exactly the upper-midline pair {11,21} — the lower-midline
pair {31,41} is *not* an exception. -/
theorem C2_continuity_amended (teeth : List Int) :
    check_continuity teeth = true ↔
      (((teeth.map (· / 10)).toFinset.card ≤ 1 ∧
        (teeth.insertionSort (· ≤ ·)).Chain' (fun a b => b - a = 1)) ∨
       teeth.toFinset = ({11, 21} : Finset Int)) := by
  have hperm := List.perm_insertionSort (· ≤ ·) teeth
  have hqf : ((teeth.insertionSort (· ≤ ·)).map (· / 10)).toFinset
      = (teeth.map (· / 10)).toFinset :=
    List.toFinset_eq_of_perm _ _ (hperm.map _)
  have htf : (teeth.insertionSort (· ≤ ·)).toFinset = teeth.toFinset :=
    List.toFinset_eq_of_perm _ _ hperm
  unfold check_continuity
  dsimp only
  split
  · next hlen =>
    simp only [true_iff]
    left
    match teeth, hlen with
    | [], _ =>
      constructor
      · simp
      · simp [List.insertionSort]
    | [a], _ =>
      constructor
      · simp
      · simp [List.insertionSort, List.orderedInsert]
  · next hlen =>
    split
    · next hcard =>
      rw [decide_eq_true_eq, htf]
      constructor
      · intro h; right; exact h
      · rintro (⟨hc, _⟩ | h)
        · exact absurd hcard (by rw [hqf]; omega)
        · exact h
    · next hcard =>
      rw [diffsOne_iff]
      constructor
      · intro h
        left
        exact ⟨by rw [← hqf]; omega, h⟩
      · rintro (⟨_, h⟩ | h)
        · exact h
        · exfalso
          apply hcard
          rw [hqf]
          have h11 : (11 : Int) ∈ teeth := by
            rw [← List.mem_toFinset, h]; simp
          have h21 : (21 : Int) ∈ teeth := by
            rw [← List.mem_toFinset, h]; simp
          have hsub : ({1, 2} : Finset Int) ⊆ (teeth.map (· / 10)).toFinset := by
            intro x hx
            rw [List.mem_toFinset]
            rcases Finset.mem_insert.mp hx with h1 | h2
            · exact h1 ▸ List.mem_map.mpr ⟨11, h11, by decide⟩
            · rw [Finset.mem_singleton] at h2
              exact h2 ▸ List.mem_map.mpr ⟨21, h21, by decide⟩
          calc 1 < ({1, 2} : Finset Int).card := by decide
            _ ≤ _ := Finset.card_le_card hsub

/-- Splitting a list that contains no separator yields the list itself. -/
theorem splitChars_of_no_sep (p : Char → Bool) :
    ∀ l : List Char, (∀ c ∈ l, p c = false) → splitChars p l = [l]
  | [], _ => rfl
  | c :: rest, h => by
    rw [splitChars]
    have hc : p c = false := h c (List.mem_cons_self c rest)
    have hrest := splitChars_of_no_sep p rest (fun x hx => h x (List.mem_cons_of_mem c hx))
    simp [hc, hrest]

/-- A string whose `strip()` is empty is all whitespace. -/
theorem all_space_of_strip_empty (s : String) (h : pyStrip s = "") :
    ∀ c ∈ s.data, pyIsSpace c = true := by
  have hX : ((s.data.dropWhile pyIsSpace).reverse.dropWhile pyIsSpace).reverse = [] :=
    congrArg String.data h
  rw [List.reverse_eq_nil_iff, List.dropWhile_eq_nil_iff] at hX
  intro c hc
  rcases List.mem_append.mp
      ((List.takeWhile_append_dropWhile (p := pyIsSpace) (l := s.data)) ▸ hc) with h1 | h2
  · exact List.mem_takeWhile_imp h1
  · exact hX c (List.mem_reverse.mpr h2)

/-- Blank input parses to the empty position list in
`validate_bridge_positions` (all-whitespace input contains no comma, so the
single piece strips to the empty token and is filtered out). -/
theorem parseBridgePositions_blank (s : String) (h : pyStrip s = "") :
    parseBridgePositions s = some [] := by
  have hall := all_space_of_strip_empty s h
  have hnosep : ∀ c ∈ s.data, decide (c = ',') = false := by
    intro c hc
    have := hall c hc
    rcases (by decide : ¬ pyIsSpace ',' = true) with _
    by_cases hcc : c = ','
    · subst hcc; simp_all
    · simp [hcc]
  unfold parseBridgePositions splitStr
  rw [splitChars_of_no_sep _ s.data hnosep]
  have : pyStrip (String.mk s.data) = "" := h
  simp [this]
  rfl

/-- C3 counterexample: the claim asserts `validateBridge("14,15,16")` has
`position_type = "posterior"`, but since 14 ∈ [11,23] the code's anterior
test fires and the call returns `"anterior"`. -/
theorem C3_counterexample :
    (validate_bridge_positions "14,15,16").valid = true ∧
    (validate_bridge_positions "14,15,16").bridge_span = some 3 ∧
    (validate_bridge_positions "14,15,16").position_type = some "anterior" ∧
    (validate_bridge_positions "14,15,16").position_type ≠ some "posterior" :=
  ⟨by rfl, by rfl, by rfl, by decide⟩

/-- C3 (amended): `validateBridge` parses and sorts the positions, fails
naming the missing tooth (`a + 1` for the first sorted neighbours `a, b`
whose difference is not 1) on any gap, rejects spans of more than 4 teeth,
and on success classifies `position_type = "anterior"` iff any tooth lies in
[11,23] (so `validateBridge("14,15,16")` is valid with `bridge_span = 3` and
`position_type = "anterior"` — not `"posterior"` — and
`validateBridge("11,13,14")` is invalid, discontinuous, naming the missing
tooth 12). -/
theorem C3_bridge_amended :
    (∀ (s : String) (ps : List Int) (a b : Int),
        parseBridgePositions s = some ps →
        firstGap (ps.insertionSort (· ≤ ·)) = some (a, b) →
        (validate_bridge_positions s).valid = false ∧
        (validate_bridge_positions s).error_type = some "discontinuous" ∧
        (validate_bridge_positions s).message = discontinuousMsg a b) ∧
    (∀ (s : String) (ps : List Int),
        parseBridgePositions s = some ps →
        firstGap (ps.insertionSort (· ≤ ·)) = none →
        4 < ps.length →
        (validate_bridge_positions s).valid = false ∧
        (validate_bridge_positions s).error_type = some "too_long") ∧
    (∀ (s : String) (ps : List Int),
        parseBridgePositions s = some ps →
        (validate_bridge_positions s).valid = true →
        (validate_bridge_positions s).positions = some (ps.insertionSort (· ≤ ·)) ∧
        (ps.insertionSort (· ≤ ·)).Sorted (· ≤ ·) ∧
        (validate_bridge_positions s).bridge_span = some ps.length ∧
        ps.length ≤ 4 ∧
        (validate_bridge_positions s).position_type =
          some (if ps.any (fun p => 11 ≤ p && p ≤ 23) then "anterior" else "posterior")) ∧
    validate_bridge_positions "14,15,16" =
      { valid := true, message := "牙位 [14, 15, 16] 驗證通過",
        bridge_span := some 3, position_type := some "anterior",
        positions := some [14, 15, 16] } ∧
    validate_bridge_positions "11,13,14" =
      { valid := false, message := "牙位不連續：11 和 13 之間缺少 12 號牙",
        error_type := some "discontinuous", positions := some [11, 13, 14] } := by
  refine ⟨?_, ?_, ?_, by rfl, by rfl⟩
  · intro s ps a b hp hg
    unfold validate_bridge_positions
    split
    · next hblank =>
      rw [parseBridgePositions_blank s hblank] at hp
      obtain rfl : ps = [] := by simpa using hp.symm
      simp [List.insertionSort, firstGap] at hg
    · rw [hp]
      dsimp only
      split
      · next hps =>
        subst hps
        simp [List.insertionSort, firstGap] at hg
      · rw [hg]
        exact ⟨rfl, rfl, rfl⟩
  · intro s ps hp hg hlen
    unfold validate_bridge_positions
    split
    · next hblank =>
      rw [parseBridgePositions_blank s hblank] at hp
      obtain rfl : ps = [] := by simpa using hp.symm
      simp at hlen
    · rw [hp]
      dsimp only
      split
      · next hps =>
        subst hps
        simp at hlen
      · rw [hg]
        dsimp only
        rw [if_pos (by rwa [List.length_insertionSort])]
        exact ⟨rfl, rfl⟩
  · intro s ps hp hv
    by_cases hblank : pyStrip s = ""
    · have hfalse : (validate_bridge_positions s).valid = false := by
        unfold validate_bridge_positions
        rw [if_pos hblank]
      rw [hfalse] at hv
      exact absurd hv (by decide)
    · have hbody : validate_bridge_positions s =
          (if ps = [] then
            { valid := false, message := "請提供有效的牙位"
              error_type := some "missing_positions" }
          else
            let positions := ps.insertionSort (· ≤ ·)
            match firstGap positions with
            | some (a, b) =>
              { valid := false, message := discontinuousMsg a b
                error_type := some "discontinuous", positions := some positions }
            | none =>
              if 4 < positions.length then
                { valid := false
                  message := s!"牙橋最多支援 4 顆牙（您選擇了 {positions.length} 顆）"
                  error_type := some "too_long", positions := some positions }
              else
                let is_anterior := positions.any (fun p => 11 ≤ p && p ≤ 23)
                let position_type := if is_anterior then "anterior" else "posterior"
                { valid := true
                  message := s!"牙位 {positions} 驗證通過"
                  bridge_span := some positions.length
                  position_type := some position_type
                  positions := some positions }) := by
        unfold validate_bridge_positions
        rw [if_neg hblank, hp]
      by_cases hps : ps = []
      · rw [hbody, if_pos hps] at hv
        exact absurd hv (by decide)
      · rw [hbody, if_neg hps] at hv ⊢
        dsimp only at hv ⊢
        cases hg : firstGap (ps.insertionSort (· ≤ ·)) with
        | some ab =>
          obtain ⟨a, b⟩ := ab
          rw [hg] at hv
          simp at hv
        | none =>
          rw [hg] at hv
          dsimp only at hv ⊢
          by_cases hlen : 4 < (ps.insertionSort (· ≤ ·)).length
          · rw [if_pos hlen] at hv
            simp at hv
          · rw [if_neg hlen] at hv ⊢
            dsimp only
            refine ⟨rfl, List.sorted_insertionSort _ _, ?_, ?_, ?_⟩
            · rw [List.length_insertionSort]
            · rw [List.length_insertionSort] at hlen
              omega
            · rw [any_insertionSort]

/-- C3 witness: the general discontinuity clause of `C3_bridge_amended`
instantiated at `"11,13,14"`, whose message names the missing tooth 12. -/
theorem C3_witness :
    parseBridgePositions "11,13,14" = some [11, 13, 14] ∧
    firstGap (([11, 13, 14] : List Int).insertionSort (· ≤ ·)) = some (11, 13) ∧
    (validate_bridge_positions "11,13,14").message = discontinuousMsg 11 13 :=
  ⟨by rfl, by rfl,
    (C3_bridge_amended.1 "11,13,14" [11, 13, 14] 11 13 (by rfl) (by rfl)).2.2⟩

/-- C4: a subtype-less `validate_material` call on a supported restoration
type and permitted category succeeds and carries the full `allowed_subtypes`
list (which for metal-free bridges excludes composite and zineer), but the
result of `validate_material_compatibility` never contains the `query_mode`
key that both the claim and the tool description in `src/tools.py` promise
(nor a separate `reason` key — the rule's reason is not in the success
dict). -/
theorem C4_query_mode_missing :
    (validate_material_compatibility "bridge" "metal-free" "").valid = true ∧
    (validate_material_compatibility "bridge" "metal-free" "").allowed_subtypes =
      some ["ips-emax", "fmz", "lava"] ∧
    "composite" ∉ ["ips-emax", "fmz", "lava"] ∧
    "zineer" ∉ ["ips-emax", "fmz", "lava"] ∧
    (validate_material_compatibility "bridge" "metal-free" "").query_mode = none ∧
    (∀ rt cat st : String, ∀ span : Int,
        (validate_material_compatibility rt cat st span).query_mode = none) := by
  refine ⟨by rfl, by rfl, by decide, by decide, by rfl, ?_⟩
  intro rt cat st span
  unfold validate_material_compatibility
  dsimp only
  repeat' split
  all_goals rfl

/-- C5 counterexample: the rule engine does not produce the §4.3 normalizer's
canonical name — on subtype `"emax"` (category metal-free) the engine's own
`subtype_map` yields `"ips-emax"` while `normalize_material` yields
`"emax"`. -/
theorem C5_counterexample :
    (validate_material_compatibility "crown" "metal-free" "emax").material_subtype =
      some "ips-emax" ∧
    normalize_material noClose noLLM "emax" "metal-free" = some "emax" ∧
    (some "ips-emax" : Option String) ≠ some "emax" :=
  ⟨by rfl, by rfl, by decide⟩

/-- C5 (amended): `checkCompatibility` normalizes the subtype with its own
local `subtype_map` rather than delegating to the §4.3 normalizer, and the
two canonical vocabularies differ: on input `"emax"` (category metal-free)
the engine's canonical subtype is `"ips-emax"` while
`normalize("emax", "metal-free")` is `"emax"`, whatever the fuzzy/LLM
oracles answer. -/
theorem C5_engine_uses_own_map :
    (∀ (getClose : String → List String → Option String)
       (llm : String → String → Option String) (use_llm : Bool),
        normalize_material getClose llm "emax" "metal-free" use_llm = some "emax") ∧
    (validate_material_compatibility "crown" "metal-free" "emax").valid = true ∧
    (validate_material_compatibility "crown" "metal-free" "emax").material_subtype =
      some ((lookupAssoc subtype_map "emax").getD "emax") ∧
    lookupAssoc subtype_map "emax" = some "ips-emax" ∧
    ("ips-emax" : String) ≠ "emax" := by
  refine ⟨?_, by rfl, by rfl, by rfl, by decide⟩
  intro getClose llm use_llm
  rfl

/-- C6: `_reset_dependent_fields` clears exactly the fixed dependency table
(restoration_type ⇒ the six dependents, material_category ⇒ three,
material_subtype ⇒ two, all other fields untouched); `shade` and
`patient_name` survive every reset and every outcome merge that can trigger
one; and the spec's concrete scenario — a bridge-validation outcome applied
to slots {crown, pfm, titanium} — drops category/subtype and sets the bridge
fields. -/
theorem C6_dependency_resets :
    (∀ od : OrderData, reset_dependent_fields od "restoration_type" =
        { od with material_category := none, material_subtype := none,
                  product_code := none, product_name := none,
                  bridge_span := none, position_type := none }) ∧
    (∀ od : OrderData, reset_dependent_fields od "material_category" =
        { od with material_subtype := none, product_code := none,
                  product_name := none }) ∧
    (∀ od : OrderData, reset_dependent_fields od "material_subtype" =
        { od with product_code := none, product_name := none }) ∧
    (∀ (od : OrderData) (f : String),
        (reset_dependent_fields od f).shade = od.shade ∧
        (reset_dependent_fields od f).patient_name = od.patient_name ∧
        (reset_dependent_fields od f).tooth_positions = od.tooth_positions ∧
        (reset_dependent_fields od f).restoration_type = od.restoration_type) ∧
    (∀ (od : OrderData) (args : ToolArgs) (res : BridgeResult),
        (extract_order_data od (.validateBridge args res)).shade = od.shade ∧
        (extract_order_data od (.validateBridge args res)).patient_name = od.patient_name) ∧
    (∀ (od : OrderData) (args : ToolArgs) (res : CompatResult),
        (extract_order_data od (.validateMaterial args res)).shade = od.shade ∧
        (extract_order_data od (.validateMaterial args res)).patient_name = od.patient_name) ∧
    (∀ (od : OrderData) (args : ToolArgs) (res : SearchResult),
        (extract_order_data od (.searchProducts args res)).shade = od.shade ∧
        (extract_order_data od (.searchProducts args res)).patient_name = od.patient_name) ∧
    extract_order_data
        { restoration_type := some "crown", material_category := some "pfm",
          material_subtype := some "titanium", shade := some "A2",
          patient_name := some "陳大明" }
        (.validateBridge { tooth_positions := some "14,15,16" }
          (validate_bridge_positions "14,15,16")) =
      { restoration_type := some "bridge", tooth_positions := some "14,15,16",
        bridge_span := some 3, position_type := some "anterior",
        shade := some "A2", patient_name := some "陳大明" } := by
  refine ⟨fun od => by rfl, fun od => by rfl, fun od => by rfl, ?_, ?_, ?_, ?_, by rfl⟩
  · intro od f
    unfold reset_dependent_fields
    repeat' split
    all_goals exact ⟨rfl, rfl, rfl, rfl⟩
  · intro od args res
    unfold extract_order_data reset_dependent_fields
    dsimp only
    repeat' split
    all_goals exact ⟨rfl, rfl⟩
  · intro od args res
    unfold extract_order_data reset_dependent_fields
    dsimp only
    repeat' split
    all_goals exact ⟨rfl, rfl⟩
  · intro od args res
    rcases res with ⟨found, products⟩
    cases hrt : truthy od.restoration_type <;>
    cases hmc : truthy od.material_category <;>
    cases hms : truthy od.material_subtype <;>
    cases hpc : truthy od.product_code <;>
    cases hpn : truthy od.product_name <;>
    cases found <;>
    rcases products with _ | ⟨p, _ | ⟨q, rest⟩⟩ <;>
    simp [extract_order_data, hrt, hmc, hms, hpc, hpn]

/-- C7: round-trip of normalization — every canonical subtype of every
category's vocabulary normalizes to itself (the alias/fuzzy cascade maps no
canonical name away), independently of the fuzzy/LLM oracles. -/
theorem C7_round_trip :
    ∀ p ∈ STANDARD_MATERIALS, ∀ s ∈ p.2,
      ∀ (getClose : String → List String → Option String)
        (llm : String → String → Option String) (use_llm : Bool),
        normalize_material getClose llm s p.1 use_llm = some s := by
  intro p hp s hs getClose llm use_llm
  fin_cases hp <;> fin_cases hs <;> rfl

/-- C7 witness: the round-trip theorem instantiated on a concrete canonical
subtype. -/
theorem C7_witness :
    ("pfm", ["high-noble", "semi-precious", "non-precious", "palladium", "titanium"])
        ∈ STANDARD_MATERIALS ∧
    "titanium" ∈ ["high-noble", "semi-precious", "non-precious", "palladium", "titanium"] ∧
    normalize_material noClose noLLM "titanium" "pfm" = some "titanium" :=
  ⟨by decide, by decide,
    C7_round_trip
      ("pfm", ["high-noble", "semi-precious", "non-precious", "palladium", "titanium"])
      (by decide) "titanium" (by decide) noClose noLLM true⟩

/-- C8: applying a `search_products` outcome back-fills restoration type /
category / subtype only into empty (falsy) slots, and touches
`product_code`/`product_name` only when the result is flagged found and
contains exactly one candidate (and then only into empty slots); with any
other number of candidates both product fields are left exactly as they
were. -/
theorem C8_product_autoselect :
    ∀ (od : OrderData) (args : ToolArgs) (res : SearchResult),
      ((extract_order_data od (.searchProducts args res)).restoration_type =
        if truthy od.restoration_type then od.restoration_type else args.restoration_type) ∧
      ((extract_order_data od (.searchProducts args res)).material_category =
        if truthy od.material_category then od.material_category else args.material_category) ∧
      ((extract_order_data od (.searchProducts args res)).material_subtype =
        if truthy od.material_subtype then od.material_subtype else args.material_subtype) ∧
      ((extract_order_data od (.searchProducts args res)).product_code =
        if res.found then
          match res.products with
          | [p] => if truthy od.product_code then od.product_code else p.product_code
          | _ => od.product_code
        else od.product_code) ∧
      ((extract_order_data od (.searchProducts args res)).product_name =
        if res.found then
          match res.products with
          | [p] => if truthy od.product_name then od.product_name
                   else some (p.material_name.getD "N/A")
          | _ => od.product_name
        else od.product_name) ∧
      (res.products.length ≠ 1 →
        (extract_order_data od (.searchProducts args res)).product_code = od.product_code ∧
        (extract_order_data od (.searchProducts args res)).product_name = od.product_name) := by
  intro od args res
  rcases res with ⟨found, products⟩
  cases hrt : truthy od.restoration_type <;>
  cases hmc : truthy od.material_category <;>
  cases hms : truthy od.material_subtype <;>
  cases hpc : truthy od.product_code <;>
  cases hpn : truthy od.product_name <;>
  cases found <;>
  rcases products with _ | ⟨p, _ | ⟨q, rest⟩⟩ <;>
  simp [extract_order_data, hrt, hmc, hms, hpc, hpn]

/-- C8 witness: two candidate products leave `product_code`/`product_name`
untouched (here: still unset). -/
theorem C8_witness :
    (({ found := true,
        products := [{ product_code := some "3630" }, { product_code := some "3631" }] }
          : SearchResult).products.length ≠ 1) ∧
    (extract_order_data { restoration_type := some "crown" }
        (.searchProducts { restoration_type := some "crown" }
          { found := true,
            products := [{ product_code := some "3630" }, { product_code := some "3631" }] })).product_code
      = ({ restoration_type := some "crown" } : OrderData).product_code :=
  ⟨by decide,
    ((C8_product_autoselect { restoration_type := some "crown" }
        { restoration_type := some "crown" }
        { found := true,
          products := [{ product_code := some "3630" }, { product_code := some "3631" }] }).2.2.2.2.2
      (by decide)).1⟩

/-- C9: the name-storage heuristic rejects — with `success = false`, an error
type, and no stored name — every input whose cleaned form is a known material
abbreviation, matches a shade-code pattern, or is a 4-digit product code;
concretely `"NP"`, `"A2"` and `"3630"` are rejected for those three reasons
while `"陳大明"` is accepted and recorded. -/
theorem C9_name_heuristic :
    (∀ s : String,
        (cleanedLowerName (cleanPatientName s) ∈ material_abbrs ∨
         isShadeFormat (cleanedLowerName (cleanPatientName s)) = true ∨
         isFourDigitCode (cleanPatientName s) = true) →
        (store_patient_name s).success = false ∧
        (store_patient_name s).patient_name = none ∧
        (store_patient_name s).error_type ≠ none) ∧
    store_patient_name "NP" =
      { success := false, message := "「NP」是常見牙科材料縮寫，不是病人姓名",
        patient_name := none, error_type := some "material_abbreviation" } ∧
    store_patient_name "A2" =
      { success := false, message := "「A2」符合色階（shade）格式，不是病人姓名",
        patient_name := none, error_type := some "shade_format" } ∧
    store_patient_name "3630" =
      { success := false, message := "「3630」看起來像是產品代碼，不是病人姓名",
        patient_name := none, error_type := some "product_code_like" } ∧
    store_patient_name "陳大明" =
      { success := true, message := "病人姓名已記錄：陳大明",
        patient_name := some "陳大明", cleaned_name := some "陳大明" } := by
  refine ⟨?_, by rfl, by rfl, by rfl, by rfl⟩
  intro s h
  unfold store_patient_name
  by_cases h0 : cleanPatientName s = ""
  · rw [if_pos h0]
    exact ⟨rfl, rfl, by simp⟩
  · rw [if_neg h0]
    by_cases h1 : cleanedLowerName (cleanPatientName s) ∈ material_abbrs
    · rw [if_pos h1]
      exact ⟨rfl, rfl, by simp⟩
    · rw [if_neg h1]
      by_cases h2 : isShadeFormat (cleanedLowerName (cleanPatientName s)) = true
      · rw [if_pos h2]
        exact ⟨rfl, rfl, by simp⟩
      · rw [if_neg h2]
        by_cases h3 : isFourDigitCode (cleanPatientName s) = true
        · rw [if_pos h3]
          exact ⟨rfl, rfl, by simp⟩
        · rcases h with h | h | h
          · exact absurd h h1
          · exact absurd h h2
          · exact absurd h h3

/-- C9 witness: the rejection clause of `C9_name_heuristic` instantiated on
the material abbreviation `"NP"`. -/
theorem C9_witness :
    (cleanedLowerName (cleanPatientName "NP") ∈ material_abbrs ∨
     isShadeFormat (cleanedLowerName (cleanPatientName "NP")) = true ∨
     isFourDigitCode (cleanPatientName "NP") = true) ∧
    (store_patient_name "NP").success = false :=
  ⟨Or.inl (by decide),
    (C9_name_heuristic.1 "NP" (Or.inl (by decide))).1⟩

/-- C10: the normalizer's stage-1 alias table ignores the requested category:
`normalize("ti", "metal-free")` is the stage-1 (non-fallback) match
`"titanium"`, which does not belong to `STANDARD_MATERIALS["metal-free"]` —
so successful normalization output is not guaranteed to lie in the given
category's vocabulary. -/
theorem C10_alias_ignores_category :
    (∀ (getClose : String → List String → Option String)
       (llm : String → String → Option String) (use_llm : Bool),
        normalize_material getClose llm "ti" "metal-free" use_llm = some "titanium") ∧
    normalize_simple "ti" = some "titanium" ∧
    "titanium" ∉ ((lookupAssoc STANDARD_MATERIALS "metal-free").getD []) ∧
    some "titanium" ≠ (none : Option String) := by
  refine ⟨?_, by rfl, by decide, by decide⟩
  intro getClose llm use_llm
  rfl

end Dental
